import Mathlib

/-!
Verification of the camera-navigation core of StudyView3D
(source: src/src/Core/Navigation.js).

The JavaScript source is shallowly embedded over an arbitrary linear ordered
field `R` (instantiated at `ℚ` for executable witnesses and at `ℝ` for the
claims that genuinely concern real trigonometry).  JavaScript numbers are
modelled as exact field elements; the primitive math routines that the source
takes from the host library (`Math.sqrt`, `Math.tan`, `Math.atan`,
`THREE.Math.degToRad`, `THREE.Math.radToDeg`) are gathered in a `MathOps`
record so that every call site in the source maps to the corresponding field.
`JS Math.round` (round half toward positive infinity) coincides with
Mathlib's `round` and is used directly.  Division by zero is `0` in a Lean
field, where JavaScript produces `Infinity`/`NaN`; every theorem below that
touches a division either proves the divisor nonzero or notes the caveat at
its statement.
-/

namespace StudyView

/-- Three-component vector, mirroring `THREE.Vector3` (only the data). -/
structure Vec3 (R : Type) where
  x : R
  y : R
  z : R
deriving DecidableEq, Repr

/-- Two-component vector, mirroring `THREE.Vector2` (used by `getWorldSize`). -/
structure Vec2 (R : Type) where
  x : R
  y : R
deriving DecidableEq, Repr

section VecOps

variable {R : Type} [LinearOrderedField R]

/-- `THREE.Vector3.add` / `addVectors`. -/
def Vec3.add (v w : Vec3 R) : Vec3 R := ⟨v.x + w.x, v.y + w.y, v.z + w.z⟩

/-- `THREE.Vector3.sub` / `subVectors`. -/
def Vec3.sub (v w : Vec3 R) : Vec3 R := ⟨v.x - w.x, v.y - w.y, v.z - w.z⟩

/-- `THREE.Vector3.multiplyScalar`. -/
def Vec3.smul (c : R) (v : Vec3 R) : Vec3 R := ⟨c * v.x, c * v.y, c * v.z⟩

/-- `THREE.Vector3.dot`. -/
def Vec3.dot (v w : Vec3 R) : R := v.x * w.x + v.y * w.y + v.z * w.z

/-- `THREE.Vector3.cross` / `crossVectors` (first argument crossed with second). -/
def Vec3.cross (a b : Vec3 R) : Vec3 R :=
  ⟨a.y * b.z - a.z * b.y, a.z * b.x - a.x * b.z, a.x * b.y - a.y * b.x⟩

/-- `THREE.Vector3.lengthSq`. -/
def Vec3.lengthSq (v : Vec3 R) : R := Vec3.dot v v

/-- The zero vector (`new THREE.Vector3(0, 0, 0)`). -/
def Vec3.zero : Vec3 R := ⟨0, 0, 0⟩

/-- Squared distance between two points (used to state distance properties
without a square root). -/
def Vec3.distSq (a b : Vec3 R) : R := Vec3.lengthSq (Vec3.sub a b)

end VecOps

/-- The host math primitives used by the source (`Math.sqrt`, `Math.tan`,
`Math.atan`, `THREE.Math.degToRad`, `THREE.Math.radToDeg`).  The source calls
them on IEEE doubles; here they are abstract functions on the carrier field,
instantiated with the genuine real functions in `realOps` and with an exact
computable test instantiation in `ratOps`. -/
structure MathOps (R : Type) where
  sqrt : R → R
  tan : R → R
  atan : R → R
  degToRad : R → R
  radToDeg : R → R

section VecNorm

variable {R : Type} [LinearOrderedField R]

/-- `THREE.Vector3.length` = `sqrt(lengthSq)`. -/
def Vec3.length (ops : MathOps R) (v : Vec3 R) : R := ops.sqrt (Vec3.lengthSq v)

/-- `THREE.Vector3.normalize` = `divideScalar(length())`; THREE's
`divideScalar` produces the zero vector when the scalar is `0`, which agrees
with `1 / 0 = 0` in a Lean field. -/
def Vec3.normalize (ops : MathOps R) (v : Vec3 R) : Vec3 R :=
  Vec3.smul (1 / Vec3.length ops v) v

end VecNorm

/-- Rational square root, exact on the handful of perfect squares the
concrete witness inputs produce (`0`, `1`, `4`, `25`) and `0` elsewhere.
Used only to instantiate the abstract `MathOps.sqrt` on witness inputs,
which are chosen with perfect-square squared lengths so that the pointwise
square-root-correctness hypotheses of the theorems hold. -/
def ratSqrt (q : ℚ) : ℚ :=
  if q = 25 then 5 else if q = 4 then 2 else if q = 1 then 1 else 0

/-- Computable test instantiation of the math primitives over `ℚ`, used to
evaluate witnesses and counterexamples whose content does not depend on the
transcendental values (the square root is exact on the perfect squares the
witnesses use). -/
def ratOps : MathOps ℚ where
  sqrt := ratSqrt
  tan := fun x => x
  atan := fun x => x
  degToRad := fun x => x * (1 / 100000)
  radToDeg := fun x => x * 100000

/-- The genuine real-number instantiation of the math primitives:
`Math.sqrt`, `Math.tan`, `Math.atan` are the real functions, and THREE's
`degToRad`/`radToDeg` multiply by `π / 180` and `180 / π`. -/
noncomputable def realOps : MathOps ℝ where
  sqrt := Real.sqrt
  tan := Real.tan
  atan := Real.arctan
  degToRad := fun x => x * (Real.pi / 180)
  radToDeg := fun x => x * (180 / Real.pi)

/-- The seven camera actions known to the lock system
(`Navigation.__lockSettings`, Navigation.js lines 28-36). -/
inductive NavAction where
  | orbit
  | pan
  | zoom
  | roll
  | fov
  | gotoview
  | walk
deriving DecidableEq, Repr

/-- `Navigation.__lockSettings`: which actions stay allowed while navigation
is locked (Navigation.js lines 28-36; all `false` at construction). -/
structure LockSettings where
  orbit : Bool
  pan : Bool
  zoom : Bool
  roll : Bool
  fov : Bool
  gotoview : Bool
  walk : Bool
deriving DecidableEq, Repr

/-- Property lookup `this.__lockSettings[action]`. -/
def LockSettings.get (ls : LockSettings) : NavAction → Bool
  | NavAction.orbit => ls.orbit
  | NavAction.pan => ls.pan
  | NavAction.zoom => ls.zoom
  | NavAction.roll => ls.roll
  | NavAction.fov => ls.fov
  | NavAction.gotoview => ls.gotoview
  | NavAction.walk => ls.walk

/-- The default lock settings installed by the constructor (all actions
disabled while locked). -/
def defaultLockSettings : LockSettings :=
  ⟨false, false, false, false, false, false, false⟩

/-- `Navigation.__options` (Navigation.js lines 16-25).  The last two fields
model the dynamically created properties `reverseHorizontalLookDirection` /
`reverseVerticalLookDirection` that the reverse-look setters write and the
getters read: a JavaScript property that was never assigned reads as
`undefined`, modelled by `none`. -/
structure NavOptions where
  dollyToPivot : Bool
  orbitPastPoles : Bool
  reverseDolly : Bool
  reverseHorizontalLook : Bool
  reverseVerticalLook : Bool
  useLeftHandedInput : Bool
  usePivotAlways : Bool
  lockNavigation : Bool
  reverseHorizontalLookDirection : Option Bool
  reverseVerticalLookDirection : Option Bool
deriving DecidableEq, Repr

/-- The options record built by the constructor (Navigation.js lines 16-25);
the two dynamic reverse-look-direction properties do not exist yet. -/
def defaultNavOptions : NavOptions where
  dollyToPivot := false
  orbitPastPoles := true
  reverseDolly := false
  reverseHorizontalLook := false
  reverseVerticalLook := false
  useLeftHandedInput := false
  usePivotAlways := false
  lockNavigation := false
  reverseHorizontalLookDirection := none
  reverseVerticalLookDirection := none

/-- `Navigation.prototype.isActionEnabled` (Navigation.js lines 838-840):
`!this.__options.lockNavigation || this.__lockSettings[action] === true`. -/
def isActionEnabled (options : NavOptions) (ls : LockSettings) (action : NavAction) : Bool :=
  !options.lockNavigation || LockSettings.get ls action

/-- The camera record as this core uses it (a `THREE.Camera` augmented by
`setCamera` with `target`, `pivot` and `worldup`; Navigation.js lines 60-74).
Claims here always run with a camera installed, so the camera is a plain
field of the state rather than a nullable one. -/
structure Camera (R : Type) where
  position : Vec3 R
  target : Vec3 R
  pivot : Vec3 R
  up : Vec3 R
  worldup : Vec3 R
  fov : R
  isPerspective : Bool
deriving DecidableEq, Repr

/-- The screen viewport rectangle (Navigation.js line 49). -/
structure Viewport (R : Type) where
  left : R
  top : R
  width : R
  height : R
deriving DecidableEq, Repr

/-- A pending destination view stored by the transition-request setters
(Navigation.js lines 902-909 and 926-933). -/
structure DestinationView (R : Type) where
  position : Vec3 R
  coi : Vec3 R
  fov : R
  up : Vec3 R
  worldUp : Vec3 R
  reorient : Bool
deriving DecidableEq, Repr

/-- The mutable state of one `Navigation` instance: the option and lock
records, the boolean flags of the constructor (Navigation.js lines 38-44),
the pending destination view, the installed camera and the viewport. -/
structure NavState (R : Type) where
  options : NavOptions
  lockSettings : LockSettings
  pivotIsSetFlag : Bool
  fitToViewRequested : Bool
  homeViewRequested : Bool
  transitionActive : Bool
  destinationView : Option (DestinationView R)
  is2D : Bool
  isTouchDevice : Bool
  camera : Camera R
  viewport : Viewport R
deriving DecidableEq, Repr

section NavStateDefs

variable {R : Type} [LinearOrderedField R]

/-- The state built by `function Navigation(camera)` (Navigation.js lines
11-49 and the closing `this.setCamera(camera)`): default options and lock
settings, all flags false, no destination view, unit viewport, and the
installed camera's `worldup` initialised to a copy of its `up`. -/
def freshNavState (cam : Camera R) : NavState R where
  options := defaultNavOptions
  lockSettings := defaultLockSettings
  pivotIsSetFlag := false
  fitToViewRequested := false
  homeViewRequested := false
  transitionActive := false
  destinationView := none
  is2D := false
  isTouchDevice := false
  camera := { cam with worldup := cam.up }
  viewport := ⟨0, 0, 1, 1⟩

/-- `this.getEyeVector()` = `camera.target - camera.position`
(Navigation.js lines 199-201). -/
def getEyeVector (st : NavState R) : Vec3 R :=
  Vec3.sub st.camera.target st.camera.position

/-- `this.getWorldUpVector()` returns a clone of `camera.worldup`
(Navigation.js lines 566-568 and `__getUp`, lines 113-115). -/
def getWorldUpVector (st : NavState R) : Vec3 R := st.camera.worldup

/-- `this.setView(position, target)` (Navigation.js lines 122-128): copies
both vectors into the camera (the camera is installed and the arguments are
present in every use below). -/
def setView (st : NavState R) (position target : Vec3 R) : NavState R :=
  { st with camera := { st.camera with position := position, target := target } }

/-- `Navigation.prototype.setReverseHorizontalLookDirection`
(Navigation.js lines 642-649): warns and skips in 2D, otherwise writes the
dynamic property `__options.reverseHorizontalLookDirection` — note the key
differs from the `reverseHorizontalLook` key the constructor initialised. -/
def setReverseHorizontalLookDirection (st : NavState R) (state : Bool) : NavState R :=
  if st.is2D then st
  else { st with options := { st.options with reverseHorizontalLookDirection := some state } }

/-- `Navigation.prototype.setReverseVerticalLookDirection`
(Navigation.js lines 658-665), same key mismatch as the horizontal one. -/
def setReverseVerticalLookDirection (st : NavState R) (state : Bool) : NavState R :=
  if st.is2D then st
  else { st with options := { st.options with reverseVerticalLookDirection := some state } }

/-- `Navigation.prototype.getReverseHorizontalLookDirection`
(Navigation.js lines 682-689): returns `false` in 2D (with a warning),
otherwise the value of the dynamic property
`__options.reverseHorizontalLookDirection` (`none` models `undefined`). -/
def getReverseHorizontalLookDirection (st : NavState R) : Option Bool :=
  if st.is2D then some false
  else st.options.reverseHorizontalLookDirection

/-- `Navigation.prototype.getReverseVerticalLookDirection`
(Navigation.js lines 698-705). -/
def getReverseVerticalLookDirection (st : NavState R) : Option Bool :=
  if st.is2D then some false
  else st.options.reverseVerticalLookDirection

/-- `Navigation.prototype.setRequestTransition` (Navigation.js lines
900-913): when `state` is true, stores a destination view capturing the
current camera up and world up; when false, clears the pending view.  There
is no lock-gate consultation in the source. -/
def setRequestTransition (st : NavState R) (state : Bool) (pos coi : Vec3 R)
    (fov : R) (reorient : Bool) : NavState R :=
  if state then
    let dv : DestinationView R :=
      { position := pos, coi := coi, fov := fov, up := st.camera.up,
        worldUp := getWorldUpVector st, reorient := reorient }
    { st with destinationView := some dv }
  else { st with destinationView := none }

/-- `Navigation.prototype.setRequestTransitionWithUp` (Navigation.js lines
924-937): like `setRequestTransition` but with an explicit camera up and an
optional world up (defaulting to the current world up); `reorient` is stored
as false.  There is no lock-gate consultation in the source. -/
def setRequestTransitionWithUp (st : NavState R) (state : Bool) (pos coi : Vec3 R)
    (fov : R) (up : Vec3 R) (worldUp : Option (Vec3 R)) : NavState R :=
  if state then
    let dv : DestinationView R :=
      { position := pos, coi := coi, fov := fov, up := up,
        worldUp := match worldUp with
          | some w => w
          | none => getWorldUpVector st,
        reorient := false }
    { st with destinationView := some dv }
  else { st with destinationView := none }

end NavStateDefs

section GeometryDefs

variable {R : Type} [LinearOrderedField R]

/-- The vector `getWorldRightVector` builds before its final `normalize`
(Navigation.js lines 575-592): a copy of the world up, overwritten with one
of three axis-aligned cross products chosen by comparing `|up.z|` with
`|up.y|` and then the sign of `up.z`. -/
def worldRightRaw (up : Vec3 R) : Vec3 R :=
  if |up.z| ≤ |up.y| then ⟨up.y, -up.x, 0⟩
  else if 0 ≤ up.z then ⟨up.z, 0, -up.x⟩
  else ⟨-up.z, 0, up.x⟩

/-- `Navigation.prototype.getWorldRightVector` (Navigation.js lines
575-592). -/
def getWorldRightVector (ops : MathOps R) (st : NavState R) : Vec3 R :=
  Vec3.normalize ops (worldRightRaw (getWorldUpVector st))

/-- The perturbation `orient` applies to the normalized view axis `z` when
the right axis `up × z` degenerates (Navigation.js lines 430-438): subtract
1e-4 from `z.y` when `up.z > up.y`, otherwise add 1e-4 to `z.z`. -/
def orientPerturb (up z : Vec3 R) : Vec3 R :=
  if up.z > up.y then { z with y := z.y - 1 / 10000 }
  else { z with z := z.z + 1 / 10000 }

/-- The perturbation as the claim words it: subtract 1e-4 from the Y
component if `up.z > up.y`, and subtract it from the Z component
otherwise. -/
def orientPerturbClaim (up z : Vec3 R) : Vec3 R :=
  if up.z > up.y then { z with y := z.y - 1 / 10000 }
  else { z with z := z.z - 1 / 10000 }

/-- `Navigation.prototype.getCameraRightVector` (Navigation.js lines
530-546): cross the eye vector with the chosen up; if that degenerates,
perturb the eye (`y -= 1e-4` when `up.z > up.y`, else `z += 1e-4`) and cross
again; finally normalize. -/
def getCameraRightVector (ops : MathOps R) (st : NavState R) (worldAligned : Bool) : Vec3 R :=
  let up := if worldAligned then getWorldUpVector st else st.camera.up
  let eye := getEyeVector st
  let right := Vec3.cross eye up
  if Vec3.lengthSq right = 0 then
    let eye2 := if up.z > up.y then { eye with y := eye.y - 1 / 10000 }
      else { eye with z := eye.z + 1 / 10000 }
    Vec3.normalize ops (Vec3.cross eye2 up)
  else Vec3.normalize ops right

/-- `Navigation.prototype.getCameraUpVector` (Navigation.js lines 507-511):
the (non-world-aligned) right vector crossed with the eye vector,
normalized. -/
def getCameraUpVector (ops : MathOps R) (st : NavState R) : Vec3 R :=
  Vec3.normalize ops (Vec3.cross (getCameraRightVector ops st false) (getEyeVector st))

/-- `Navigation.prototype.getWorldSize` (Navigation.js lines 969-976):
frustum size at a given distance, `height = 2 * d * tan(degToRad(fov/2))`,
`width = height * aspect`. -/
def getWorldSize (ops : MathOps R) (st : NavState R) (atDistance : R) : Vec2 R :=
  let aspect := st.viewport.width / st.viewport.height
  let worldHeight := 2 * atDistance * ops.tan (ops.degToRad (st.camera.fov * (1 / 2)))
  ⟨worldHeight * aspect, worldHeight⟩

/-- `Navigation.prototype.panRelative` (Navigation.js lines 1047-1062):
no-op when the pan action is disabled; otherwise translate both camera
position and target by `deltaX * trackSpeed.x * right + deltaY *
trackSpeed.y * up`. -/
def panRelative (ops : MathOps R) (st : NavState R) (deltaX deltaY atDistance : R) : NavState R :=
  if isActionEnabled st.options st.lockSettings NavAction.pan then
    let trackSpeed := getWorldSize ops st atDistance
    let offsetX := deltaX * trackSpeed.x
    let offsetY := deltaY * trackSpeed.y
    let trackX := Vec3.smul offsetX (getCameraRightVector ops st false)
    let trackY := Vec3.smul offsetY (getCameraUpVector ops st)
    let offsetVector := Vec3.add trackX trackY
    setView st (Vec3.add st.camera.position offsetVector)
      (Vec3.add st.camera.target offsetVector)
  else st

/-- `Navigation.prototype.dollyFromPoint` (Navigation.js lines 1069-1097):
move the camera along the line from `point` to the current position by
`distance`, with the new length from `point` floored at `10 * kEpsilon`;
the look-at point is recomputed from the (for orthographic cameras,
rescaled) eye vector.  The division `newLength / oldLength` is a genuine
division by zero when the camera sits exactly at `point` (JavaScript yields
`Infinity` and then NaN coordinates; the field model yields scale 0 and a
camera parked on `point` — the claim about a minimum distance fails under
either semantics, see the C4 counterexample). -/
def dollyFromPoint (ops : MathOps R) (st : NavState R) (distance : R) (point : Vec3 R) :
    NavState R :=
  if isActionEnabled st.options st.lockSettings NavAction.zoom = false ∨
      |distance| ≤ (1 / 1000000 : R) then st
  else
    let position := st.camera.position
    let dollyVec := Vec3.sub point position
    let oldLength := Vec3.length ops dollyVec
    let newLength0 := oldLength + distance
    let kMinDistance := (1 / 1000000 : R) * 10
    let newLength := if newLength0 < kMinDistance then kMinDistance else newLength0
    let scaleFactor := newLength / oldLength
    if |scaleFactor - 1| > (1 / 1000000 : R) then
      let dv := Vec3.smul scaleFactor dollyVec
      let dvNeg : Vec3 R := ⟨-dv.x, -dv.y, -dv.z⟩
      let newPosition := Vec3.add dvNeg point
      let viewVec := getEyeVector st
      let viewVec2 := if st.camera.isPerspective = false then Vec3.smul scaleFactor viewVec
        else viewVec
      setView st newPosition (Vec3.add viewVec2 newPosition)
    else st

end GeometryDefs

section FitDefs

variable {R : Type} [LinearOrderedField R]

/-- The `{position, target}` record `computeFit` returns. -/
structure FitResult (R2 : Type) where
  position : Vec3 R2
  target : Vec3 R2
deriving DecidableEq, Repr

/-- `THREE.Box3` (axis-aligned bounding box, data only). -/
structure Box3 (R2 : Type) where
  bmin : Vec3 R2
  bmax : Vec3 R2
deriving DecidableEq, Repr

/-- `THREE.Box3.empty`: a box is empty when some max component is below the
corresponding min component. -/
def Box3.isEmpty (b : Box3 R) : Bool :=
  decide (b.bmax.x < b.bmin.x) || decide (b.bmax.y < b.bmin.y) || decide (b.bmax.z < b.bmin.z)

/-- `THREE.Box3.center` = `(min + max) * 0.5`. -/
def Box3.center (b : Box3 R) : Vec3 R := Vec3.smul (1 / 2) (Vec3.add b.bmin b.bmax)

/-- `THREE.Box3.size` = `max - min`. -/
def Box3.size (b : Box3 R) : Vec3 R := Vec3.sub b.bmax b.bmin

/-- `Navigation.computeFit` (Navigation.js lines 280-302): empty or absent
bounds return the inputs unchanged; otherwise target = bounds center,
radius = half the diagonal length floored to 1.0 when zero, multiplied by
the fudge factor `max(1, 0.9 + fov/kMaxFOV*0.5)` (kMaxFOV = 100) whenever
the view is not 2D (the source does NOT test the projection kind), and
position = target + normalize(oldpos - oldcoi) * (radius / tan(degToRad(fov/2))). -/
def computeFit (ops : MathOps R) (is2D : Bool) (oldpos oldcoi : Vec3 R) (fov : R)
    (bounds : Option (Box3 R)) : FitResult R :=
  match bounds with
  | none => { position := oldpos, target := oldcoi }
  | some b =>
    if b.isEmpty then { position := oldpos, target := oldcoi }
    else
      let coi := Box3.center b
      let size := Box3.size b
      let radius0 := (1 / 2 : R) * ops.sqrt (size.x * size.x + size.y * size.y + size.z * size.z)
      let radius1 := if radius0 = 0 then 1 else radius0
      let radius2 := if is2D = false then
          radius1 * (max 1 ((9 / 10 : R) + fov / 100 * (1 / 2))) else radius1
      { position := Vec3.add coi (Vec3.smul
          (radius2 / ops.tan (ops.degToRad (fov * (1 / 2))))
          (Vec3.normalize ops (Vec3.sub oldpos oldcoi))),
        target := coi }

/-- The reference definition of `computeFit` exactly as the claim words it:
identical, except that the fudge factor is applied only when the view is
non-2D AND the camera is perspective, and the floor to 1.0 is tested on the
diagonal length itself. -/
def computeFitClaim (ops : MathOps R) (is2D isPerspective : Bool) (oldpos oldcoi : Vec3 R)
    (fov : R) (bounds : Option (Box3 R)) : FitResult R :=
  match bounds with
  | none => { position := oldpos, target := oldcoi }
  | some b =>
    if b.isEmpty then { position := oldpos, target := oldcoi }
    else
      let coi := Box3.center b
      let size := Box3.size b
      let diag := ops.sqrt (size.x * size.x + size.y * size.y + size.z * size.z)
      let radius1 := if diag = 0 then 1 else (1 / 2 : R) * diag
      let radius2 := if is2D = false ∧ isPerspective = true then
          radius1 * (max 1 ((9 / 10 : R) + fov / 100 * (1 / 2))) else radius1
      { position := Vec3.add coi (Vec3.smul
          (radius2 / ops.tan (ops.degToRad (fov * (1 / 2))))
          (Vec3.normalize ops (Vec3.sub oldpos oldcoi))),
        target := coi }

/-- The claim's reference definition amended: the fudge factor is applied
exactly when the view is non-2D, regardless of the projection kind. -/
def computeFitSpec (ops : MathOps R) (is2D : Bool) (oldpos oldcoi : Vec3 R)
    (fov : R) (bounds : Option (Box3 R)) : FitResult R :=
  match bounds with
  | none => { position := oldpos, target := oldcoi }
  | some b =>
    if b.isEmpty then { position := oldpos, target := oldcoi }
    else
      let coi := Box3.center b
      let size := Box3.size b
      let diag := ops.sqrt (size.x * size.x + size.y * size.y + size.z * size.z)
      let radius1 := if diag = 0 then 1 else (1 / 2 : R) * diag
      let radius2 := if is2D = false then
          radius1 * (max 1 ((9 / 10 : R) + fov / 100 * (1 / 2))) else radius1
      { position := Vec3.add coi (Vec3.smul
          (radius2 / ops.tan (ops.degToRad (fov * (1 / 2))))
          (Vec3.normalize ops (Vec3.sub oldpos oldcoi))),
        target := coi }

end FitDefs

section FovDefs

variable {R : Type} [LinearOrderedField R] [FloorRing R]

/-- `Navigation.prototype.fov2fl` (Navigation.js lines 455-467): convert a
vertical field of view in degrees to a 35mm focal length,
`round(12 / tan(rads * 0.5))` where `rads = degToRad(fov)` is replaced by
1e-4 only when it is nonpositive (`if (rads <= 0.0) rads = 0.0001`).
JavaScript `Math.round` (round half toward positive infinity) is Mathlib's
`round`. -/
def fov2fl (ops : MathOps R) (fov : R) : R :=
  let rads0 := ops.degToRad fov
  let rads := if rads0 ≤ 0 then (1 / 10000 : R) else rads0
  ((round ((12 : R) / ops.tan (rads * (1 / 2))) : ℤ) : R)

/-- `Navigation.prototype.fl2fov` (Navigation.js lines 474-487): convert a
35mm focal length to a vertical field of view in degrees,
`radToDeg(2 * atan(12 / fl))` with `fl` replaced by 1e-4 when
nonpositive. -/
def fl2fov (ops : MathOps R) (fl : R) : R :=
  let flc := if fl ≤ 0 then (1 / 10000 : R) else fl
  ops.radToDeg (2 * ops.atan ((12 : R) / flc))

/-- `fov2fl` exactly as claim C7 words it: the radian angle is clamped to a
MINIMUM of 1e-4 (so every angle below 1e-4 radians, including small positive
ones, is replaced by 1e-4). -/
def fov2flClaim (ops : MathOps R) (fov : R) : R :=
  let rads0 := ops.degToRad fov
  let rads := if rads0 < (1 / 10000 : R) then (1 / 10000 : R) else rads0
  ((round ((12 : R) / ops.tan (rads * (1 / 2))) : ℤ) : R)

end FovDefs


/-- A concrete camera used for closed counterexamples and witnesses. -/
def sampleCamera : Camera ℚ where
  position := ⟨0, 0, 1⟩
  target := ⟨0, 0, 0⟩
  pivot := ⟨0, 0, 0⟩
  up := ⟨0, 1, 0⟩
  worldup := ⟨0, 1, 0⟩
  fov := 45
  isPerspective := true

/-- A concrete navigation state whose navigation is locked with all
per-action overrides at their default false, so that the gotoview action is
disabled. -/
def lockedNavState : NavState ℚ :=
  { freshNavState sampleCamera with
      options := { defaultNavOptions with lockNavigation := true } }

/-- An orthographic camera sitting exactly at the dolly anchor point, used
by the C4 counterexample. -/
def dollyCexCamera : Camera ℚ where
  position := ⟨1, 2, 3⟩
  target := ⟨5, 5, 5⟩
  pivot := ⟨0, 0, 0⟩
  up := ⟨0, 1, 0⟩
  worldup := ⟨0, 1, 0⟩
  fov := 45
  isPerspective := false

/-- A perspective camera at the origin, dollied toward `(3,4,0)` (old length
5, a perfect square root) far past the anchor; used by the C4 witness. -/
def dollyWitnessCamera : Camera ℚ where
  position := ⟨0, 0, 0⟩
  target := ⟨0, 0, 5⟩
  pivot := ⟨0, 0, 0⟩
  up := ⟨0, 1, 0⟩
  worldup := ⟨0, 1, 0⟩
  fov := 45
  isPerspective := true

section HelperLemmas

variable {R : Type} [LinearOrderedField R]

/-- Lemma: the squared length of a vector vanishes only on the zero
vector (sum of squares in a linear ordered field). -/
theorem Vec3.lengthSq_eq_zero_iff (v : Vec3 R) :
    Vec3.lengthSq v = 0 ↔ v = Vec3.zero := by
  rcases v with ⟨x, y, z⟩
  simp only [Vec3.lengthSq, Vec3.dot, Vec3.zero, Vec3.mk.injEq]
  constructor
  · intro h
    refine ⟨?_, ?_, ?_⟩ <;> nlinarith [sq_nonneg x, sq_nonneg y, sq_nonneg z]
  · rintro ⟨hx, hy, hz⟩
    simp [hx, hy, hz]

/-- Lemma: the dot product is linear in a scalar multiple on the left. -/
theorem Vec3.dot_smul_left (c : R) (v w : Vec3 R) :
    Vec3.dot (Vec3.smul c v) w = c * Vec3.dot v w := by
  rcases v with ⟨a, b, d⟩
  rcases w with ⟨e, f, g⟩
  simp only [Vec3.smul, Vec3.dot]
  ring

/-- Lemma: adding the same offset to both points leaves their difference
unchanged. -/
theorem Vec3.add_sub_add_cancel (a b o : Vec3 R) :
    Vec3.sub (Vec3.add a o) (Vec3.add b o) = Vec3.sub a b := by
  rcases a with ⟨a1, a2, a3⟩
  rcases b with ⟨b1, b2, b3⟩
  rcases o with ⟨o1, o2, o3⟩
  simp only [Vec3.add, Vec3.sub, Vec3.mk.injEq]
  refine ⟨by ring, by ring, by ring⟩

/-- Lemma: the squared distance from `p` of the point obtained by adding to
`p` the negated scaling of `p - c` is the squared scale times the squared
length of `p - c` (the algebra of `dollyFromPoint`'s repositioning). -/
theorem distSq_add_neg_smul (s : R) (p c : Vec3 R) :
    Vec3.distSq
      (Vec3.add ⟨-(Vec3.smul s (Vec3.sub p c)).x, -(Vec3.smul s (Vec3.sub p c)).y,
        -(Vec3.smul s (Vec3.sub p c)).z⟩ p) p =
      s * s * Vec3.lengthSq (Vec3.sub p c) := by
  rcases p with ⟨p1, p2, p3⟩
  rcases c with ⟨c1, c2, c3⟩
  simp only [Vec3.distSq, Vec3.lengthSq, Vec3.dot, Vec3.add, Vec3.sub, Vec3.smul]
  ring

end HelperLemmas

/-- Elementary sandwich for the real tangent on `(0, 1/2]`, derived from the
Taylor bounds on sine and cosine: `x/2 <= tan x <= 2*x`. -/
theorem tan_sandwich {x : ℝ} (hx0 : 0 < x) (hx1 : x ≤ 1 / 2) :
    x / 2 ≤ Real.tan x ∧ Real.tan x ≤ 2 * x := by
  have hxabs : |x| ≤ 1 := by
    rw [abs_of_pos hx0]
    linarith
  have hs := abs_le.mp (Real.sin_bound hxabs)
  have hc := abs_le.mp (Real.cos_bound hxabs)
  rw [abs_of_pos hx0] at hs hc
  have hx2 : x ^ 2 ≤ (1 / 2) ^ 2 := by nlinarith
  have hx3 : x ^ 3 ≤ (1 / 2) ^ 3 := by nlinarith
  have hx4 : x ^ 4 ≤ (1 / 2) ^ 4 := by nlinarith
  have hsin_lo : x / 2 ≤ Real.sin x := by nlinarith [hs.1]
  have hsin_hi : Real.sin x < x := Real.sin_lt hx0
  have hcos_lo : (1 / 2 : ℝ) ≤ Real.cos x := by nlinarith [hc.1]
  have hcos_hi : Real.cos x ≤ 1 := Real.cos_le_one x
  have hcos_pos : 0 < Real.cos x := by linarith
  rw [Real.tan_eq_sin_div_cos]
  constructor
  · rw [le_div_iff₀ hcos_pos]
    nlinarith
  · rw [div_le_iff₀ hcos_pos]
    nlinarith

/-- Interval Taylor bounds for sine and cosine on `[0, 1]`: if
`0 <= a <= x <= b <= 1` then `sin x` and `cos x` lie between the degree-3 /
degree-2 Taylor polynomials evaluated at the interval ends, with the
`5/96 * b^4` remainder. -/
theorem sin_cos_interval (x a b : ℝ) (hax : a ≤ x) (hxb : x ≤ b)
    (ha : 0 ≤ a) (hb : b ≤ 1) :
    (a - b ^ 3 / 6 - b ^ 4 * (5 / 96) ≤ Real.sin x ∧
      Real.sin x ≤ b - a ^ 3 / 6 + b ^ 4 * (5 / 96)) ∧
    (1 - b ^ 2 / 2 - b ^ 4 * (5 / 96) ≤ Real.cos x ∧
      Real.cos x ≤ 1 - a ^ 2 / 2 + b ^ 4 * (5 / 96)) := by
  have hx0 : 0 ≤ x := le_trans ha hax
  have hxabs : |x| ≤ 1 := by
    rw [abs_of_nonneg hx0]
    linarith
  have hs := abs_le.mp (Real.sin_bound hxabs)
  have hc := abs_le.mp (Real.cos_bound hxabs)
  rw [abs_of_nonneg hx0] at hs hc
  have h3a : a ^ 3 ≤ x ^ 3 := pow_le_pow_left₀ ha hax 3
  have h3b : x ^ 3 ≤ b ^ 3 := pow_le_pow_left₀ hx0 hxb 3
  have h2a : a ^ 2 ≤ x ^ 2 := pow_le_pow_left₀ ha hax 2
  have h2b : x ^ 2 ≤ b ^ 2 := pow_le_pow_left₀ hx0 hxb 2
  have h4b : x ^ 4 ≤ b ^ 4 := pow_le_pow_left₀ hx0 hxb 4
  have h4nn : (0 : ℝ) ≤ x ^ 4 := by positivity
  refine ⟨⟨?_, ?_⟩, ?_, ?_⟩
  · linarith only [hs.1, hax, h3b, h4b]
  · linarith only [hs.2, hxb, h3a, h4b, h4nn]
  · linarith only [hc.1, h2b, h4b]
  · linarith only [hc.2, h2a, h4b, h4nn]

/-- Double-angle step for interval bounds: nonnegative bounds on `sin x` and
`cos x` give bounds on `sin (2x)` and `cos (2x)`. -/
theorem sin_cos_double (x sl su cl cu : ℝ) (hs1 : sl ≤ Real.sin x)
    (hs2 : Real.sin x ≤ su) (hc1 : cl ≤ Real.cos x) (hc2 : Real.cos x ≤ cu)
    (hsl : 0 ≤ sl) (hcl : 0 ≤ cl) :
    (2 * sl * cl ≤ Real.sin (2 * x) ∧ Real.sin (2 * x) ≤ 2 * su * cu) ∧
    (1 - 2 * su ^ 2 ≤ Real.cos (2 * x) ∧ Real.cos (2 * x) ≤ 1 - 2 * sl ^ 2) := by
  have hsnn : (0 : ℝ) ≤ Real.sin x := le_trans hsl hs1
  have hcnn : (0 : ℝ) ≤ Real.cos x := le_trans hcl hc1
  have hsu : (0 : ℝ) ≤ su := le_trans hsnn hs2
  have hcu : (0 : ℝ) ≤ cu := le_trans hcnn hc2
  have hcd : Real.cos (2 * x) = 1 - 2 * Real.sin x ^ 2 := by
    rw [Real.cos_two_mul']
    linear_combination Real.sin_sq_add_cos_sq x
  rw [Real.sin_two_mul, hcd]
  refine ⟨⟨?_, ?_⟩, ?_, ?_⟩
  · linarith only [mul_le_mul hs1 hc1 hcl hsnn]
  · linarith only [mul_le_mul hs2 hc2 hcnn hsu]
  · linarith only [pow_le_pow_left₀ hsnn hs2 2]
  · linarith only [pow_le_pow_left₀ hsl hs1 2]

/-- Claim C1: for every action, `isActionEnabled` is true iff navigation is
not globally locked or the per-action lock-settings override is exactly true;
hence with `lockNavigation = false` every action is enabled, with
`lockNavigation = true` and default (all-false) lock settings every action is
disabled, and with `lockNavigation = true` and only the pan override set to
true exactly the pan action is enabled. -/
theorem C1_isActionEnabled_spec :
    (∀ (o : NavOptions) (ls : LockSettings) (a : NavAction),
      isActionEnabled o ls a = true ↔
        (o.lockNavigation = false ∨ LockSettings.get ls a = true)) ∧
    (∀ (ls : LockSettings) (a : NavAction),
      isActionEnabled { defaultNavOptions with lockNavigation := false } ls a = true) ∧
    (∀ a : NavAction,
      isActionEnabled { defaultNavOptions with lockNavigation := true }
        defaultLockSettings a = false) ∧
    (∀ a : NavAction,
      isActionEnabled { defaultNavOptions with lockNavigation := true }
        { defaultLockSettings with pan := true } a = true ↔ a = NavAction.pan) := by
  refine ⟨?_, ?_, ?_, ?_⟩
  · intro o ls a
    cases h : o.lockNavigation <;> simp [isActionEnabled, h]
  · intro ls a
    simp [isActionEnabled]
  · intro a
    cases a <;> simp [isActionEnabled, defaultLockSettings, LockSettings.get]
  · intro a
    cases a <;> simp [isActionEnabled, defaultLockSettings, LockSettings.get]

/-- Claim C2 counterexample: in a state where navigation is locked and the
gotoview override is false (so the gotoview action is disabled),
`setRequestTransition` is not a no-op — it installs a destination view even
though the claim says the stored request must be left unchanged. -/
theorem C2_setRequestTransition_ignores_lock_cex :
    isActionEnabled lockedNavState.options lockedNavState.lockSettings
      NavAction.gotoview = false ∧
    lockedNavState.destinationView = none ∧
    (setRequestTransition lockedNavState true ⟨1, 2, 3⟩ ⟨0, 0, 0⟩ 45
        false).destinationView ≠ lockedNavState.destinationView ∧
    (setRequestTransitionWithUp lockedNavState true ⟨1, 2, 3⟩ ⟨0, 0, 0⟩ 45
        ⟨0, 1, 0⟩ none).destinationView ≠ lockedNavState.destinationView := by
  refine ⟨by decide, by decide, ?_, ?_⟩ <;> decide

/-- Claim C2 amended: `setRequestTransition` and `setRequestTransitionWithUp`
do not consult the lock gate at all; for every navigation state (locked or
not) a true `state` argument unconditionally stores the described destination
view and a false one unconditionally clears it.  (The gotoview gate is
enforced by their callers `fitBounds`, `setRequestFitToView` and
`setRequestHomeView` instead.) -/
theorem C2_setRequestTransition_unconditional {R : Type} [LinearOrderedField R]
    (st : NavState R) (pos coi : Vec3 R) (fov : R) (reorient : Bool)
    (up : Vec3 R) (worldUp : Option (Vec3 R)) :
    (setRequestTransition st true pos coi fov reorient).destinationView =
      some { position := pos, coi := coi, fov := fov, up := st.camera.up,
             worldUp := st.camera.worldup, reorient := reorient } ∧
    (setRequestTransition st false pos coi fov reorient).destinationView = none ∧
    (setRequestTransitionWithUp st true pos coi fov up worldUp).destinationView =
      some { position := pos, coi := coi, fov := fov, up := up,
             worldUp := match worldUp with
               | some w => w
               | none => st.camera.worldup,
             reorient := false } ∧
    (setRequestTransitionWithUp st false pos coi fov up worldUp).destinationView = none := by
  refine ⟨rfl, rfl, rfl, rfl⟩

/-- Claim C9: the constructor initialises `__options.reverseHorizontalLook`
and `__options.reverseVerticalLook` to `false`, but the getters read the
differently named dynamic properties `reverseHorizontalLookDirection` /
`reverseVerticalLookDirection`, which no code has written on a fresh
instance; so in non-2D mode both getters return `undefined` (modelled
`none`), not the constructed default `false` — `undefined !== false` in
JavaScript.  After a setter call the getter does return the set value,
showing the mismatch is between constructor key and accessor key. -/
theorem C9_reverseLook_fresh_returns_undefined :
    (freshNavState sampleCamera).is2D = false ∧
    (freshNavState sampleCamera).options.reverseHorizontalLook = false ∧
    (freshNavState sampleCamera).options.reverseVerticalLook = false ∧
    getReverseHorizontalLookDirection (freshNavState sampleCamera) = none ∧
    getReverseVerticalLookDirection (freshNavState sampleCamera) = none ∧
    (none : Option Bool) ≠ some false ∧
    getReverseHorizontalLookDirection
      (setReverseHorizontalLookDirection (freshNavState sampleCamera) true) = some true ∧
    getReverseVerticalLookDirection
      (setReverseVerticalLookDirection (freshNavState sampleCamera) true) = some true := by
  decide

/-- Claim C10: for every nonzero world up, the vector `getWorldRightVector`
builds before normalization is nonzero and orthogonal to the world up (in
each of the three axis-aligned branches), and the returned normalized vector
is likewise orthogonal to the world up. -/
theorem C10_worldRightVector_orthogonal {R : Type} [LinearOrderedField R]
    (up : Vec3 R) (ops : MathOps R) (st : NavState R)
    (h : up ≠ Vec3.zero) (hst : st.camera.worldup = up) :
    worldRightRaw up ≠ Vec3.zero ∧
    Vec3.dot (worldRightRaw up) up = 0 ∧
    Vec3.dot (getWorldRightVector ops st) up = 0 := by
  have core : ∀ v : Vec3 R, v ≠ Vec3.zero →
      worldRightRaw v ≠ Vec3.zero ∧ Vec3.dot (worldRightRaw v) v = 0 := by
    rintro ⟨x, y, z⟩ hv
    unfold worldRightRaw
    dsimp only
    split_ifs with h1 h2
    · constructor
      · intro heq
        simp only [Vec3.zero, Vec3.mk.injEq] at heq
        obtain ⟨hy, hx, -⟩ := heq
        apply hv
        have hx0 : x = 0 := neg_eq_zero.mp hx
        have hz0 : z = 0 := by
          rw [hy, abs_zero] at h1
          exact abs_eq_zero.mp (le_antisymm h1 (abs_nonneg z))
        simp only [Vec3.zero, Vec3.mk.injEq]
        exact ⟨hx0, hy, hz0⟩
      · simp only [Vec3.dot]
        ring
    · constructor
      · intro heq
        simp only [Vec3.zero, Vec3.mk.injEq] at heq
        obtain ⟨hz, -, -⟩ := heq
        apply h1
        rw [hz, abs_zero]
        exact abs_nonneg y
      · simp only [Vec3.dot]
        ring
    · constructor
      · intro heq
        simp only [Vec3.zero, Vec3.mk.injEq] at heq
        obtain ⟨hz, -, -⟩ := heq
        apply h1
        have hz0 : z = 0 := neg_eq_zero.mp hz
        rw [hz0, abs_zero]
        exact abs_nonneg y
      · simp only [Vec3.dot]
        ring
  obtain ⟨hnz, hdot⟩ := core up h
  refine ⟨hnz, hdot, ?_⟩
  unfold getWorldRightVector getWorldUpVector
  rw [hst, Vec3.normalize, Vec3.dot_smul_left, hdot, mul_zero]

/-- Claim C10 witness: at world up `(0,0,1)` the branch vector is `(1,0,0)`,
nonzero and orthogonal, and the normalized result stays orthogonal. -/
theorem C10_worldRightVector_orthogonal_witness :
    ((⟨0, 0, 1⟩ : Vec3 ℚ) ≠ Vec3.zero) ∧
    (freshNavState { sampleCamera with up := ⟨0, 0, 1⟩ }).camera.worldup = ⟨0, 0, 1⟩ ∧
    (worldRightRaw (⟨0, 0, 1⟩ : Vec3 ℚ) ≠ Vec3.zero ∧
      Vec3.dot (worldRightRaw (⟨0, 0, 1⟩ : Vec3 ℚ)) ⟨0, 0, 1⟩ = 0 ∧
      Vec3.dot (getWorldRightVector ratOps
        (freshNavState { sampleCamera with up := ⟨0, 0, 1⟩ })) ⟨0, 0, 1⟩ = 0) :=
  ⟨by decide, by decide,
    C10_worldRightVector_orthogonal ⟨0, 0, 1⟩ ratOps
      (freshNavState { sampleCamera with up := ⟨0, 0, 1⟩ }) (by decide) (by decide)⟩

/-- Claim C6 counterexample: at `up = z = (0,1,0)` (a unit view axis
parallel to up, so the right axis degenerates) the source adds 1e-4 to the
Z component where the claim says it subtracts 1e-4; and at
`up = z = (0,-1,0)` the perturbed basis is still degenerate, against the
claim that the recomputed basis is always non-degenerate. -/
theorem C6_orient_perturb_cex :
    Vec3.lengthSq (Vec3.cross (⟨0, 1, 0⟩ : Vec3 ℚ) ⟨0, 1, 0⟩) = 0 ∧
    ((⟨0, 1, 0⟩ : Vec3 ℚ) ≠ Vec3.zero) ∧
    Vec3.dot (⟨0, 1, 0⟩ : Vec3 ℚ) ⟨0, 1, 0⟩ = 1 ∧
    orientPerturb (⟨0, 1, 0⟩ : Vec3 ℚ) ⟨0, 1, 0⟩ ≠
      orientPerturbClaim (⟨0, 1, 0⟩ : Vec3 ℚ) ⟨0, 1, 0⟩ ∧
    Vec3.cross (⟨0, -1, 0⟩ : Vec3 ℚ) ⟨0, -1, 0⟩ = Vec3.zero ∧
    ((⟨0, -1, 0⟩ : Vec3 ℚ) ≠ Vec3.zero) ∧
    Vec3.cross (⟨0, -1, 0⟩ : Vec3 ℚ)
      (orientPerturb (⟨0, -1, 0⟩ : Vec3 ℚ) ⟨0, -1, 0⟩) = Vec3.zero := by
  refine ⟨?_, by decide, ?_, ?_, ?_, by decide, ?_⟩ <;>
    norm_num [Vec3.cross, Vec3.lengthSq, Vec3.dot, Vec3.zero, Vec3.mk.injEq,
      orientPerturb, orientPerturbClaim]

/-- Claim C6 amended: when the right axis `up × z` of the normalized view
axis `z` degenerates, `orient` subtracts 1e-4 from `z.y` if `up.z > up.y`
and otherwise ADDS 1e-4 to `z.z` (the claim said subtract); the recomputed
right axis `up × z2` is then nonzero except precisely when `up.x = 0` and
the up component along the perturbation axis complement vanishes (`up.z = 0`
in the Y branch — i.e. `up` along negative Y —, `up.y = 0` in the Z branch —
i.e. `up` along non-positive Z). -/
theorem C6_orient_perturb_amended {R : Type} [LinearOrderedField R]
    (up z : Vec3 R) (hz : z ≠ Vec3.zero) (hpar : Vec3.cross up z = Vec3.zero) :
    orientPerturb up z =
      (if up.z > up.y then (⟨z.x, z.y - 1 / 10000, z.z⟩ : Vec3 R)
        else ⟨z.x, z.y, z.z + 1 / 10000⟩) ∧
    (Vec3.cross up (orientPerturb up z) = Vec3.zero ↔
      (up.x = 0 ∧ (if up.z > up.y then up.z = 0 else up.y = 0))) := by
  rcases up with ⟨ux, uy, uz⟩
  rcases z with ⟨zx, zy, zz⟩
  simp only [Vec3.cross, Vec3.zero, Vec3.mk.injEq] at hpar
  obtain ⟨h1, h2, h3⟩ := hpar
  have heps : (1 / 10000 : R) ≠ 0 := by norm_num
  unfold orientPerturb
  split_ifs with hb
  · refine ⟨rfl, ?_⟩
    simp only [Vec3.cross, Vec3.zero, Vec3.mk.injEq]
    constructor
    · rintro ⟨c1, -, c3⟩
      have huz : uz * (1 / 10000 : R) = 0 := by linear_combination c1 - h1
      have hux : ux * (1 / 10000 : R) = 0 := by linear_combination h3 - c3
      exact ⟨by
        rcases mul_eq_zero.mp hux with h5 | h5
        · exact h5
        · exact absurd h5 heps, by
        rcases mul_eq_zero.mp huz with h5 | h5
        · exact h5
        · exact absurd h5 heps⟩
    · rintro ⟨hux, huz⟩
      subst hux
      subst huz
      refine ⟨by linear_combination h1, by ring, by linear_combination h3⟩
  · refine ⟨rfl, ?_⟩
    simp only [Vec3.cross, Vec3.zero, Vec3.mk.injEq]
    constructor
    · rintro ⟨c1, c2, -⟩
      have huy : uy * (1 / 10000 : R) = 0 := by linear_combination c1 - h1
      have hux : ux * (1 / 10000 : R) = 0 := by linear_combination h2 - c2
      exact ⟨by
        rcases mul_eq_zero.mp hux with h5 | h5
        · exact h5
        · exact absurd h5 heps, by
        rcases mul_eq_zero.mp huy with h5 | h5
        · exact h5
        · exact absurd h5 heps⟩
    · rintro ⟨hux, huy⟩
      subst hux
      subst huy
      refine ⟨by linear_combination h1, by linear_combination h2, by linear_combination h3⟩

/-- Claim C6 witness: at `up = z = (0,0,1)` the degenerate case triggers,
the code subtracts 1e-4 from `z.y`, and the recomputed right axis is
nonzero. -/
theorem C6_orient_perturb_amended_witness :
    ((⟨0, 0, 1⟩ : Vec3 ℚ) ≠ Vec3.zero) ∧
    Vec3.cross (⟨0, 0, 1⟩ : Vec3 ℚ) ⟨0, 0, 1⟩ = Vec3.zero ∧
    (orientPerturb (⟨0, 0, 1⟩ : Vec3 ℚ) ⟨0, 0, 1⟩ =
      (if (⟨0, 0, 1⟩ : Vec3 ℚ).z > (⟨0, 0, 1⟩ : Vec3 ℚ).y then
        (⟨(0 : ℚ), 0 - 1 / 10000, 1⟩ : Vec3 ℚ)
        else ⟨(0 : ℚ), 0, 1 + 1 / 10000⟩) ∧
    (Vec3.cross (⟨0, 0, 1⟩ : Vec3 ℚ) (orientPerturb (⟨0, 0, 1⟩ : Vec3 ℚ) ⟨0, 0, 1⟩) =
        Vec3.zero ↔
      ((⟨0, 0, 1⟩ : Vec3 ℚ).x = 0 ∧
        (if (⟨0, 0, 1⟩ : Vec3 ℚ).z > (⟨0, 0, 1⟩ : Vec3 ℚ).y then
          (⟨0, 0, 1⟩ : Vec3 ℚ).z = 0 else (⟨0, 0, 1⟩ : Vec3 ℚ).y = 0)))) :=
  ⟨by decide, by simp [Vec3.cross, Vec3.zero],
    C6_orient_perturb_amended (⟨0, 0, 1⟩ : Vec3 ℚ) ⟨0, 0, 1⟩ (by decide)
      (by simp [Vec3.cross, Vec3.zero])⟩

/-- Claim C5: whenever the pan action is enabled, `panRelative` translates
camera position and target by the same offset vector, so the difference
`target - position` (the view direction with its length) is exactly
preserved. -/
theorem C5_panRelative_preserves_direction {R : Type} [LinearOrderedField R]
    (ops : MathOps R) (st : NavState R) (deltaX deltaY atDistance : R)
    (h : isActionEnabled st.options st.lockSettings NavAction.pan = true) :
    Vec3.sub (panRelative ops st deltaX deltaY atDistance).camera.target
        (panRelative ops st deltaX deltaY atDistance).camera.position =
      Vec3.sub st.camera.target st.camera.position := by
  unfold panRelative
  rw [if_pos h]
  simp only [setView]
  exact Vec3.add_sub_add_cancel _ _ _

/-- Claim C5 witness: a concrete enabled pan on the sample state preserves
the view direction. -/
theorem C5_panRelative_preserves_direction_witness :
    isActionEnabled (freshNavState sampleCamera).options
      (freshNavState sampleCamera).lockSettings NavAction.pan = true ∧
    Vec3.sub (panRelative ratOps (freshNavState sampleCamera) 1 2 10).camera.target
        (panRelative ratOps (freshNavState sampleCamera) 1 2 10).camera.position =
      Vec3.sub (freshNavState sampleCamera).camera.target
        (freshNavState sampleCamera).camera.position :=
  ⟨by decide,
    C5_panRelative_preserves_direction ratOps (freshNavState sampleCamera) 1 2 10 (by decide)⟩

/-- Claim C4 counterexample: with the camera exactly at `point`, the old
length is zero and `scaleFactor = newLength / 0` degenerates (`Infinity` and
then NaN coordinates in JavaScript; scale `0` in the exact field model);
the guarded block still runs and the camera is left at distance `0` from
`point` — under either semantics its distance from `point` is not at least
1e-5, refuting the claim for this distance and point. -/
theorem C4_dollyFromPoint_cex :
    dollyFromPoint ratOps (freshNavState dollyCexCamera) 1 ⟨1, 2, 3⟩ ≠
      freshNavState dollyCexCamera ∧
    Vec3.distSq
      (dollyFromPoint ratOps (freshNavState dollyCexCamera) 1 ⟨1, 2, 3⟩).camera.position
      ⟨1, 2, 3⟩ = 0 ∧
    ¬ ((1 / 100000 : ℚ) ^ 2 ≤
      Vec3.distSq
        (dollyFromPoint ratOps (freshNavState dollyCexCamera) 1 ⟨1, 2, 3⟩).camera.position
        ⟨1, 2, 3⟩) := by
  refine ⟨?_, ?_, ?_⟩ <;>
    norm_num [dollyFromPoint, freshNavState, dollyCexCamera, isActionEnabled,
      defaultNavOptions, defaultLockSettings, LockSettings.get, getEyeVector, setView,
      ratOps, ratSqrt, Vec3.length, Vec3.lengthSq, Vec3.dot, Vec3.sub, Vec3.add,
      Vec3.smul, Vec3.distSq, Vec3.zero, NavState.mk.injEq, Camera.mk.injEq,
      Vec3.mk.injEq]

/-- Claim C4 amended: whenever the camera does not already sit exactly at
`point` (nonzero old length, with the abstract square root correct at that
input) and `dollyFromPoint` changes the state, the new camera position is at
distance at least `10 * kEpsilon = 1e-5` from `point` (stated on squared
distances: `distSq ≥ (1e-5)^2`), regardless of how large `|distance|` is. -/
theorem C4_dollyFromPoint_min_distance {R : Type} [LinearOrderedField R]
    (ops : MathOps R) (st : NavState R) (distance : R) (point : Vec3 R)
    (hsq : Vec3.length ops (Vec3.sub point st.camera.position) *
        Vec3.length ops (Vec3.sub point st.camera.position) =
        Vec3.lengthSq (Vec3.sub point st.camera.position))
    (hpos : 0 < Vec3.length ops (Vec3.sub point st.camera.position))
    (hmoved : dollyFromPoint ops st distance point ≠ st) :
    (1 / 100000 : R) ^ 2 ≤
      Vec3.distSq (dollyFromPoint ops st distance point).camera.position point := by
  simp only [dollyFromPoint] at hmoved ⊢
  set L := Vec3.length ops (Vec3.sub point st.camera.position) with hLdef
  have hLne : L ≠ 0 := hpos.ne'
  have main : ∀ NL : R, (1 / 100000 : R) ≤ NL →
      (1 / 100000 : R) ^ 2 ≤ Vec3.distSq
        (Vec3.add
          ⟨-(Vec3.smul (NL / L) (Vec3.sub point st.camera.position)).x,
            -(Vec3.smul (NL / L) (Vec3.sub point st.camera.position)).y,
            -(Vec3.smul (NL / L) (Vec3.sub point st.camera.position)).z⟩ point) point := by
    intro NL hNL
    rw [distSq_add_neg_smul, ← hsq]
    have heq : NL / L * (NL / L) * (L * L) = NL * NL := by
      field_simp
    rw [heq]
    have h0 : (0 : R) ≤ (1 / 100000 : R) := by norm_num
    calc (1 / 100000 : R) ^ 2 = (1 / 100000 : R) * (1 / 100000 : R) := by ring
    _ ≤ NL * NL := mul_le_mul hNL hNL h0 (le_trans h0 hNL)
  by_cases hguard : isActionEnabled st.options st.lockSettings NavAction.zoom = false ∨
      |distance| ≤ (1 / 1000000 : R)
  · rw [if_pos hguard] at hmoved
    exact absurd rfl hmoved
  · rw [if_neg hguard] at hmoved ⊢
    by_cases hclamp : L + distance < (1 / 1000000 : R) * 10
    · rw [if_pos hclamp] at hmoved ⊢
      by_cases hrun : |(1 / 1000000 : R) * 10 / L - 1| > (1 / 1000000 : R)
      · rw [if_pos hrun]
        simp only [setView]
        exact main ((1 / 1000000 : R) * 10) (by norm_num)
      · rw [if_neg hrun] at hmoved
        exact absurd rfl hmoved
    · rw [if_neg hclamp] at hmoved ⊢
      by_cases hrun : |(L + distance) / L - 1| > (1 / 1000000 : R)
      · rw [if_pos hrun]
        simp only [setView]
        refine main (L + distance) ?_
        push_neg at hclamp
        calc (1 / 100000 : R) = (1 / 1000000 : R) * 10 := by norm_num
        _ ≤ L + distance := hclamp
      · rw [if_neg hrun] at hmoved
        exact absurd rfl hmoved

/-- Claim C4 witness: dollying distance `-10` toward `(3,4,0)` from length 5
clamps the new length to 1e-5 and leaves the camera at squared distance
exactly `(1e-5)^2` from the anchor. -/
theorem C4_dollyFromPoint_min_distance_witness :
    (Vec3.length ratOps (Vec3.sub (⟨3, 4, 0⟩ : Vec3 ℚ)
        (freshNavState dollyWitnessCamera).camera.position) *
      Vec3.length ratOps (Vec3.sub (⟨3, 4, 0⟩ : Vec3 ℚ)
        (freshNavState dollyWitnessCamera).camera.position) =
      Vec3.lengthSq (Vec3.sub (⟨3, 4, 0⟩ : Vec3 ℚ)
        (freshNavState dollyWitnessCamera).camera.position)) ∧
    (0 < Vec3.length ratOps (Vec3.sub (⟨3, 4, 0⟩ : Vec3 ℚ)
        (freshNavState dollyWitnessCamera).camera.position)) ∧
    dollyFromPoint ratOps (freshNavState dollyWitnessCamera) (-10) ⟨3, 4, 0⟩ ≠
      freshNavState dollyWitnessCamera ∧
    (1 / 100000 : ℚ) ^ 2 ≤
      Vec3.distSq
        (dollyFromPoint ratOps (freshNavState dollyWitnessCamera) (-10) ⟨3, 4, 0⟩).camera.position
        ⟨3, 4, 0⟩ :=
  ⟨by norm_num [ratOps, ratSqrt, freshNavState, dollyWitnessCamera, Vec3.length,
      Vec3.lengthSq, Vec3.sub, Vec3.dot],
    by norm_num [ratOps, ratSqrt, freshNavState, dollyWitnessCamera, Vec3.length,
      Vec3.lengthSq, Vec3.sub, Vec3.dot],
    by norm_num [dollyFromPoint, freshNavState, dollyWitnessCamera, isActionEnabled,
      defaultNavOptions, defaultLockSettings, LockSettings.get, getEyeVector, setView,
      ratOps, ratSqrt, Vec3.length, Vec3.lengthSq, Vec3.dot, Vec3.sub, Vec3.add,
      Vec3.smul, Vec3.zero, NavState.mk.injEq, Camera.mk.injEq, Vec3.mk.injEq,
        abs_of_pos, abs_of_nonneg],
    C4_dollyFromPoint_min_distance ratOps (freshNavState dollyWitnessCamera) (-10) ⟨3, 4, 0⟩
      (by norm_num [ratOps, ratSqrt, freshNavState, dollyWitnessCamera, Vec3.length,
        Vec3.lengthSq, Vec3.sub, Vec3.dot])
      (by norm_num [ratOps, ratSqrt, freshNavState, dollyWitnessCamera, Vec3.length,
        Vec3.lengthSq, Vec3.sub, Vec3.dot])
      (by norm_num [dollyFromPoint, freshNavState, dollyWitnessCamera, isActionEnabled,
        defaultNavOptions, defaultLockSettings, LockSettings.get, getEyeVector, setView,
        ratOps, ratSqrt, Vec3.length, Vec3.lengthSq, Vec3.dot, Vec3.sub, Vec3.add,
        Vec3.smul, Vec3.zero, NavState.mk.injEq, Camera.mk.injEq, Vec3.mk.injEq,
        abs_of_pos, abs_of_nonneg])⟩

/-- Claim C3 amended: `computeFit` equals the claim's reference definition
with the fudge condition corrected to "non-2D" alone: empty or absent bounds
return the inputs unchanged; otherwise target = bounds center, radius = half
the diagonal length floored to 1.0 when the length is zero, multiplied by
`max(1, 0.9 + fov/100*0.5)` exactly when the view is non-2D (whether or not
the camera is perspective), position = target + normalize(oldpos - oldcoi) *
(radius / tan(radians(fov)/2)) — direction preserved. -/
theorem C3_computeFit_refines_amended {R : Type} [LinearOrderedField R] (ops : MathOps R) (is2D : Bool)
    (oldpos oldcoi : Vec3 R) (fov : R) (bounds : Option (Box3 R)) :
    computeFit ops is2D oldpos oldcoi fov bounds =
      computeFitSpec ops is2D oldpos oldcoi fov bounds := by
  rcases bounds with - | b
  · rfl
  · have hiff : ∀ S : R, ((1 / 2 : R) * S = 0) = (S = 0) := fun S =>
      propext ⟨fun h => (mul_eq_zero.mp h).resolve_left (by norm_num),
        fun h => by rw [h, mul_zero]⟩
    simp only [computeFit, computeFitSpec, hiff]

/-- Claim C3 counterexample: for a non-2D ORTHOGRAPHIC camera the claim's
reference definition applies no fudge factor, but the source applies it
(line 290 tests only `!getIs2D()`): with bounds diag 5, fov 90, the code
puts the camera at x = 3/2 + 2.5*1.35 = 39/8 while the claim's reference
puts it at x = 3/2 + 2.5 = 4. -/
theorem C3_computeFit_cex :
    (computeFit realOps false ⟨2, 0, 0⟩ ⟨1, 0, 0⟩ 90
        (some ⟨⟨0, 0, 0⟩, ⟨3, 4, 0⟩⟩)).position.x = 39 / 8 ∧
    (computeFitClaim realOps false false ⟨2, 0, 0⟩ ⟨1, 0, 0⟩ 90
        (some ⟨⟨0, 0, 0⟩, ⟨3, 4, 0⟩⟩)).position.x = 4 ∧
    computeFit realOps false ⟨2, 0, 0⟩ ⟨1, 0, 0⟩ 90 (some ⟨⟨0, 0, 0⟩, ⟨3, 4, 0⟩⟩) ≠
      computeFitClaim realOps false false ⟨2, 0, 0⟩ ⟨1, 0, 0⟩ 90
        (some ⟨⟨0, 0, 0⟩, ⟨3, 4, 0⟩⟩) := by
  have hsq25 : Real.sqrt 25 = 5 := by
    rw [show (25 : ℝ) = 5 ^ 2 by norm_num]
    exact Real.sqrt_sq (by norm_num)
  have htan : Real.tan ((45 : ℝ) * (Real.pi / 180)) = 1 := by
    rw [show (45 : ℝ) * (Real.pi / 180) = Real.pi / 4 by ring]
    exact Real.tan_pi_div_four
  have h1 : (computeFit realOps false ⟨2, 0, 0⟩ ⟨1, 0, 0⟩ 90
      (some ⟨⟨0, 0, 0⟩, ⟨3, 4, 0⟩⟩)).position.x = 39 / 8 := by
    simp only [computeFit, Box3.isEmpty, Box3.center, Box3.size, realOps, Vec3.sub,
      Vec3.add, Vec3.smul, Vec3.normalize, Vec3.length, Vec3.lengthSq, Vec3.dot]
    norm_num [htan, hsq25, Real.sqrt_one]
  have h2 : (computeFitClaim realOps false false ⟨2, 0, 0⟩ ⟨1, 0, 0⟩ 90
      (some ⟨⟨0, 0, 0⟩, ⟨3, 4, 0⟩⟩)).position.x = 4 := by
    simp only [computeFitClaim, Box3.isEmpty, Box3.center, Box3.size, realOps, Vec3.sub,
      Vec3.add, Vec3.smul, Vec3.normalize, Vec3.length, Vec3.lengthSq, Vec3.dot]
    norm_num [htan, hsq25, Real.sqrt_one]
  refine ⟨h1, h2, fun heq => ?_⟩
  rw [heq, h2] at h1
  norm_num at h1


/-- Claim C7 counterexample: at `fov = 0.001` degrees the radian measure
`pi/180000` is positive but below 1e-4, so the source uses it as is (giving
a focal length above 500000 mm) while the claim's minimum clamp would use
1e-4 radians (giving at most 480000 mm); the results differ. -/
theorem C7_fov2fl_clamp_cex :
    fov2fl realOps (1 / 1000) ≠ fov2flClaim realOps (1 / 1000) := by
  have hpi1 : (3.14 : ℝ) < Real.pi := Real.pi_gt_d2
  have hpi2 : Real.pi < 3.15 := Real.pi_lt_d2
  have hpos : (0 : ℝ) < (1 / 1000 : ℝ) * (Real.pi / 180) := by positivity
  have hsmall : (1 / 1000 : ℝ) * (Real.pi / 180) < 1 / 10000 := by nlinarith
  have hx1pos : (0 : ℝ) < (1 / 1000 : ℝ) * (Real.pi / 180) * (1 / 2) := by positivity
  have hx1le : (1 / 1000 : ℝ) * (Real.pi / 180) * (1 / 2) ≤ 1 / 2 := by nlinarith
  obtain ⟨ht1lo, ht1hi⟩ := tan_sandwich hx1pos hx1le
  have hx2pos : (0 : ℝ) < (1 / 10000 : ℝ) * (1 / 2) := by norm_num
  have hx2le : (1 / 10000 : ℝ) * (1 / 2) ≤ 1 / 2 := by norm_num
  obtain ⟨ht2lo, ht2hi⟩ := tan_sandwich hx2pos hx2le
  have ht1pos : (0 : ℝ) < Real.tan ((1 / 1000 : ℝ) * (Real.pi / 180) * (1 / 2)) := by
    calc (0 : ℝ) < (1 / 1000 : ℝ) * (Real.pi / 180) * (1 / 2) / 2 := by positivity
    _ ≤ _ := ht1lo
  have ht2pos : (0 : ℝ) < Real.tan ((1 / 10000 : ℝ) * (1 / 2)) := by
    calc (0 : ℝ) < (1 / 10000 : ℝ) * (1 / 2) / 2 := by norm_num
    _ ≤ _ := ht2lo
  -- the source value is at least 500000
  have hv : (500000 : ℝ) ≤ 12 / Real.tan ((1 / 1000 : ℝ) * (Real.pi / 180) * (1 / 2)) := by
    have htu : Real.tan ((1 / 1000 : ℝ) * (Real.pi / 180) * (1 / 2)) ≤ 3.15 / 180000 := by
      calc Real.tan ((1 / 1000 : ℝ) * (Real.pi / 180) * (1 / 2)) ≤
          2 * ((1 / 1000 : ℝ) * (Real.pi / 180) * (1 / 2)) := ht1hi
      _ ≤ 3.15 / 180000 := by nlinarith
    calc (500000 : ℝ) ≤ 12 / (3.15 / 180000) := by norm_num
    _ ≤ 12 / Real.tan ((1 / 1000 : ℝ) * (Real.pi / 180) * (1 / 2)) := by
        apply div_le_div_of_nonneg_left (by norm_num) ht1pos htu
  -- the claim value is at most 480000
  have hw : 12 / Real.tan ((1 / 10000 : ℝ) * (1 / 2)) ≤ 480000 := by
    have htl : (1 / 40000 : ℝ) ≤ Real.tan ((1 / 10000 : ℝ) * (1 / 2)) := by
      calc (1 / 40000 : ℝ) = (1 / 10000 : ℝ) * (1 / 2) / 2 := by norm_num
      _ ≤ _ := ht2lo
    have hstep : 12 / Real.tan ((1 / 10000 : ℝ) * (1 / 2)) ≤ 12 / (1 / 40000 : ℝ) := by
      apply div_le_div_of_nonneg_left (by norm_num) (by norm_num) htl
    calc 12 / Real.tan ((1 / 10000 : ℝ) * (1 / 2)) ≤ 12 / (1 / 40000 : ℝ) := hstep
    _ = 480000 := by norm_num
  have hround1 : (500000 : ℤ) ≤ round ((12 : ℝ) / Real.tan ((1 / 1000 : ℝ) * (Real.pi / 180) * (1 / 2))) := by
    rw [round_eq]
    apply Int.le_floor.mpr
    push_cast
    linarith
  have hround2 : round ((12 : ℝ) / Real.tan ((1 / 10000 : ℝ) * (1 / 2))) ≤ 480000 := by
    rw [round_eq]
    apply Int.le_of_lt_add_one
    apply Int.floor_lt.mpr
    push_cast
    linarith
  simp only [fov2fl, fov2flClaim, realOps]
  rw [if_neg (not_le.mpr hpos), if_pos hsmall]
  intro heq
  have hcast : round ((12 : ℝ) / Real.tan ((1 / 1000 : ℝ) * (Real.pi / 180) * (1 / 2))) =
      round ((12 : ℝ) / Real.tan ((1 / 10000 : ℝ) * (1 / 2))) := by
    exact_mod_cast heq
  omega

/-- Claim C7 amended: the 1e-4 substitute is used exactly when the radian
measure `degToRad(fov)` is NONPOSITIVE; a positive radian measure, however
small (in particular below 1e-4), is used as is. -/
theorem C7_fov2fl_amended {R : Type} [LinearOrderedField R] [FloorRing R]
    (ops : MathOps R) (fov : R) :
    (ops.degToRad fov ≤ 0 →
      fov2fl ops fov = ((round ((12 : R) / ops.tan ((1 / 10000 : R) * (1 / 2))) : ℤ) : R)) ∧
    (0 < ops.degToRad fov →
      fov2fl ops fov = ((round ((12 : R) / ops.tan (ops.degToRad fov * (1 / 2))) : ℤ) : R)) := by
  constructor
  · intro h
    simp only [fov2fl]
    rw [if_pos h]
  · intro h
    simp only [fov2fl]
    rw [if_neg (not_le.mpr h)]

/-- Claim C7 witness: at the test instantiation with `fov = 1` the radian
measure is the small positive 1e-5, below the claimed 1e-4 minimum, and the
source uses it unclamped. -/
theorem C7_fov2fl_amended_witness :
    (0 < ratOps.degToRad 1) ∧
    fov2fl ratOps 1 = ((round ((12 : ℚ) / ratOps.tan (ratOps.degToRad 1 * (1 / 2))) : ℤ) : ℚ) :=
  ⟨by norm_num [ratOps],
    (C7_fov2fl_amended ratOps 1).2 (by norm_num [ratOps])⟩


set_option maxHeartbeats 2000000 in
/-- Claim C8 counterexample: at `fov = 99` degrees (inside the legal range
[6.88, 100]) the focal length `12 / tan(99 * pi / 360) ~ 10.25` rounds down
to 10 mm, and `fl2fov(10) = degrees(2 * atan(1.2)) ~ 100.39`, which differs
from 99 by more than 1 degree.  Established by certified interval
arithmetic: Taylor bounds at the quarter angle and two double-angle steps
pin `tan(99 * pi / 360)` inside `[1.168, 1.173]`, and `arctan(6/5)` is
bounded below through `tan(0.8727) < 6/5`. -/
theorem C8_roundtrip_cex :
    ¬ (|fl2fov realOps (fov2fl realOps 99) - 99| ≤ 1) := by
  have hpi_a : (3.141592 : ℝ) < Real.pi := Real.pi_gt_d6
  have hpi_b : Real.pi < 3.141593 := Real.pi_lt_d6
  have hpi_pos : (0 : ℝ) < Real.pi := Real.pi_pos
  -- interval chain at the quarter angle 99 * pi / 1440
  have hax : (0.21598445 : ℝ) ≤ 99 * Real.pi / 1440 := by linarith only [hpi_a]
  have hxb : 99 * Real.pi / 1440 ≤ (0.21598452 : ℝ) := by linarith only [hpi_b]
  obtain ⟨⟨hsA, hsB⟩, hcA, hcB⟩ := sin_cos_interval (99 * Real.pi / 1440)
    0.21598445 0.21598452 hax hxb (by norm_num) (by norm_num)
  have hs1 : (0.2141918 : ℝ) ≤ Real.sin (99 * Real.pi / 1440) :=
    le_trans (by norm_num) hsA
  have hs2 : Real.sin (99 * Real.pi / 1440) ≤ (0.2144187 : ℝ) :=
    le_trans hsB (by norm_num)
  have hc1 : (0.9765620 : ℝ) ≤ Real.cos (99 * Real.pi / 1440) :=
    le_trans (by norm_num) hcA
  have hc2 : Real.cos (99 * Real.pi / 1440) ≤ (0.9767888 : ℝ) :=
    le_trans hcB (by norm_num)
  obtain ⟨⟨hdA, hdB⟩, hdC, hdD⟩ := sin_cos_double (99 * Real.pi / 1440)
    0.2141918 0.2144187 0.9765620 0.9767888 hs1 hs2 hc1 hc2 (by norm_num) (by norm_num)
  have hs1b : (0.4183431 : ℝ) ≤ Real.sin (2 * (99 * Real.pi / 1440)) :=
    le_trans (by norm_num) hdA
  have hs2b : Real.sin (2 * (99 * Real.pi / 1440)) ≤ (0.4188836 : ℝ) :=
    le_trans hdB (by norm_num)
  have hc1b : (0.9080492 : ℝ) ≤ Real.cos (2 * (99 * Real.pi / 1440)) :=
    le_trans (by norm_num) hdC
  have hc2b : Real.cos (2 * (99 * Real.pi / 1440)) ≤ (0.9082438 : ℝ) :=
    le_trans hdD (by norm_num)
  obtain ⟨⟨heA, heB⟩, heC, heD⟩ := sin_cos_double (2 * (99 * Real.pi / 1440))
    0.4183431 0.4188836 0.9080492 0.9082438 hs1b hs2b hc1b hc2b (by norm_num) (by norm_num)
  have hs1c : (0.7597522 : ℝ) ≤ Real.sin (2 * (2 * (99 * Real.pi / 1440))) :=
    le_trans (by norm_num) heA
  have hs2c : Real.sin (2 * (2 * (99 * Real.pi / 1440))) ≤ (0.7608969 : ℝ) :=
    le_trans heB (by norm_num)
  have hc1c : (0.6490730 : ℝ) ≤ Real.cos (2 * (2 * (99 * Real.pi / 1440))) :=
    le_trans (by norm_num) heC
  have hc2c : Real.cos (2 * (2 * (99 * Real.pi / 1440))) ≤ (0.6499782 : ℝ) :=
    le_trans heD (by norm_num)
  have hcpos : (0 : ℝ) < Real.cos (2 * (2 * (99 * Real.pi / 1440))) :=
    lt_of_lt_of_le (by norm_num) hc1c
  have htan_lo : (8 / 7 : ℝ) < Real.tan (2 * (2 * (99 * Real.pi / 1440))) := by
    rw [Real.tan_eq_sin_div_cos, lt_div_iff₀ hcpos]
    linarith only [hs1c, hc2c]
  have htan_hi : Real.tan (2 * (2 * (99 * Real.pi / 1440))) < (24 / 19 : ℝ) := by
    rw [Real.tan_eq_sin_div_cos, div_lt_iff₀ hcpos]
    linarith only [hs2c, hc1c]
  have htanpos : (0 : ℝ) < Real.tan (2 * (2 * (99 * Real.pi / 1440))) :=
    lt_trans (by norm_num) htan_lo
  have hv_lo : (9.5 : ℝ) ≤ 12 / Real.tan (2 * (2 * (99 * Real.pi / 1440))) := by
    rw [le_div_iff₀ htanpos]
    linarith only [htan_hi]
  have hv_hi : 12 / Real.tan (2 * (2 * (99 * Real.pi / 1440))) < (10.5 : ℝ) := by
    rw [div_lt_iff₀ htanpos]
    linarith only [htan_lo]
  have hround : round ((12 : ℝ) / Real.tan (2 * (2 * (99 * Real.pi / 1440)))) = (10 : ℤ) := by
    rw [round_eq]
    have hlo : (10 : ℤ) ≤ ⌊(12 : ℝ) / Real.tan (2 * (2 * (99 * Real.pi / 1440))) + 1 / 2⌋ :=
      Int.le_floor.mpr (by push_cast; linarith only [hv_lo])
    have hhi : ⌊(12 : ℝ) / Real.tan (2 * (2 * (99 * Real.pi / 1440))) + 1 / 2⌋ < 11 :=
      Int.floor_lt.mpr (by push_cast; linarith only [hv_hi])
    omega
  have hfov2fl : fov2fl realOps 99 = 10 := by
    simp only [fov2fl, realOps]
    rw [if_neg (not_le.mpr (by positivity : (0 : ℝ) < 99 * (Real.pi / 180)))]
    rw [show (99 : ℝ) * (Real.pi / 180) * (1 / 2) = 2 * (2 * (99 * Real.pi / 1440)) by ring]
    rw [hround]
    norm_num
  -- lower bound on arctan (6/5) through tan 0.8727 < 6/5
  obtain ⟨⟨hqA, hqB⟩, hqC, hqD⟩ := sin_cos_interval (0.218175 : ℝ)
    0.218175 0.218175 le_rfl le_rfl (by norm_num) (by norm_num)
  have hq1 : (0.2163261 : ℝ) ≤ Real.sin (0.218175 : ℝ) := le_trans (by norm_num) hqA
  have hq2 : Real.sin (0.218175 : ℝ) ≤ (0.2165622 : ℝ) := le_trans hqB (by norm_num)
  have hq3 : (0.9760818 : ℝ) ≤ Real.cos (0.218175 : ℝ) := le_trans (by norm_num) hqC
  have hq4 : Real.cos (0.218175 : ℝ) ≤ (0.9763179 : ℝ) := le_trans hqD (by norm_num)
  obtain ⟨⟨hrA, hrB⟩, hrC, hrD⟩ := sin_cos_double (0.218175 : ℝ)
    0.2163261 0.2165622 0.9760818 0.9763179 hq1 hq2 hq3 hq4 (by norm_num) (by norm_num)
  have hr1 : (0.4223039 : ℝ) ≤ Real.sin (2 * (0.218175 : ℝ)) := le_trans (by norm_num) hrA
  have hr2 : Real.sin (2 * (0.218175 : ℝ)) ≤ (0.4228672 : ℝ) := le_trans hrB (by norm_num)
  have hr3 : (0.9062016 : ℝ) ≤ Real.cos (2 * (0.218175 : ℝ)) := le_trans (by norm_num) hrC
  have hr4 : Real.cos (2 * (0.218175 : ℝ)) ≤ (0.9064061 : ℝ) := le_trans hrD (by norm_num)
  obtain ⟨⟨htA, htB⟩, htC, htD⟩ := sin_cos_double (2 * (0.218175 : ℝ))
    0.4223039 0.4228672 0.9062016 0.9064061 hr1 hr2 hr3 hr4 (by norm_num) (by norm_num)
  have ht2 : Real.sin (2 * (2 * (0.218175 : ℝ))) ≤ (0.7665789 : ℝ) := le_trans htB (by norm_num)
  have ht3 : (0.6423666 : ℝ) ≤ Real.cos (2 * (2 * (0.218175 : ℝ))) := le_trans (by norm_num) htC
  have htqpos : (0 : ℝ) < Real.cos (2 * (2 * (0.218175 : ℝ))) := lt_of_lt_of_le (by norm_num) ht3
  have htq : Real.tan (2 * (2 * (0.218175 : ℝ))) < (6 / 5 : ℝ) := by
    rw [Real.tan_eq_sin_div_cos, div_lt_iff₀ htqpos]
    linarith only [ht2, ht3]
  have htq9 : Real.tan (0.8727 : ℝ) < (6 / 5 : ℝ) := by
    rw [show (0.8727 : ℝ) = 2 * (2 * (0.218175 : ℝ)) by norm_num]
    exact htq
  have hqlt : (0.8727 : ℝ) < Real.pi / 2 := by linarith only [hpi_a]
  have hqgt : -(Real.pi / 2) < (0.8727 : ℝ) := by linarith only [hpi_a]
  have harct : Real.arctan (Real.tan (0.8727 : ℝ)) = (0.8727 : ℝ) :=
    Real.arctan_tan hqgt hqlt
  have hmono : Real.arctan (Real.tan (0.8727 : ℝ)) < Real.arctan (6 / 5 : ℝ) :=
    Real.arctan_strictMono htq9
  have harc2 : (0.8727 : ℝ) < Real.arctan (6 / 5 : ℝ) := by
    rw [← harct]
    exact hmono
  have h518 : 5 * Real.pi / 18 < (0.8727 : ℝ) := by linarith only [hpi_b]
  have hkey : 5 * Real.pi / 18 < Real.arctan (6 / 5 : ℝ) := lt_trans h518 harc2
  have hX : (100 : ℝ) < 2 * Real.arctan ((12 : ℝ) / 10) * (180 / Real.pi) := by
    rw [show ((12 : ℝ) / 10) = (6 / 5 : ℝ) by norm_num]
    have hpos2 : (0 : ℝ) < 180 / Real.pi := by positivity
    have hbase : (100 : ℝ) = 2 * (5 * Real.pi / 18) * (180 / Real.pi) := by
      field_simp
      ring
    rw [hbase]
    apply mul_lt_mul_of_pos_right _ hpos2
    linarith only [hkey]
  have hfl2fov : fl2fov realOps (10 : ℝ) = 2 * Real.arctan ((12 : ℝ) / 10) * (180 / Real.pi) := by
    simp only [fl2fov, realOps]
    rw [if_neg (by norm_num : ¬((10 : ℝ) ≤ 0))]
  intro habs
  rw [hfov2fl, hfl2fov] at habs
  have h99 := (abs_le.mp habs).2
  linarith only [h99, hX]

/-- Claim C8 amended, positive part: the round trip is exact at `fov = 90`
degrees, where the focal length is exactly 12 mm: `fov2fl(90) = round(12 /
tan(pi/4)) = 12` and `fl2fov(12) = degrees(2 * atan(1)) = 90`. -/
theorem C8_roundtrip_exact_at_90 : fl2fov realOps (fov2fl realOps 90) = 90 := by
  have h1 : fov2fl realOps 90 = 12 := by
    simp only [fov2fl, realOps]
    rw [if_neg (not_le.mpr (by positivity : (0 : ℝ) < 90 * (Real.pi / 180)))]
    rw [show (90 : ℝ) * (Real.pi / 180) * (1 / 2) = Real.pi / 4 by ring,
      Real.tan_pi_div_four]
    norm_num [round_eq]
  rw [h1]
  simp only [fl2fov, realOps]
  rw [if_neg (by norm_num : ¬((12 : ℝ) ≤ 0))]
  rw [show (12 : ℝ) / 12 = 1 by norm_num, Real.arctan_one]
  have hpi : Real.pi ≠ 0 := Real.pi_ne_zero
  field_simp
  ring

end StudyView
